import Mathlib

/-!
Verification development for the can327 ELM327-based CAN line-discipline
driver (src/module/can327.c).  The protocol engine — buffers, state
machine, command scheduler, line parsing, byte ingest, fault latch — is
shallowly embedded below.  Conventions:

* Bytes are `Nat` (values 0..255); buffers are `List Nat`.
* The 224-byte receive array is modelled as a `List Nat` of length 224
  together with the fill counter `rxfill`; reads use `List.getD _ _ 0`.
  Reads at an index the C code cannot justify to be inside the array
  (the two `rxbuf[rxfill - 1]` sites, where `rxfill - 1` is computed in
  `int` arithmetic and may be -1) go through `readRx`, which returns
  `none` for an index outside 0..223: `none` marks an out-of-bounds
  access of the C code, i.e. undefined behaviour.
* `memmove`-based dropping of consumed bytes keeps the stale tail bytes
  exactly as the C code does.
* C `int` expressions built from `hex_to_bin` (which may be -1) are
  computed in `Int` and truncated two's-complement style at the points
  where the C code converts to `u8`/`u32`.
* The transport write is split off: the protocol-engine functions
  assume the tty consumes every byte handed to `elm327_send` (outputs
  are collected in a `List Out`), while the byte-level transmit
  accounting of `elm327_send` / `can327_ldisc_tx_worker` (`txleft`,
  `txhead`, partial writes, negative returns) is modelled separately on
  `TxSide`, with the tty write result supplied as an oracle argument.
* Kernel-side collaborators are modelled at their interface: skb
  allocation succeeds, `netif_running` is true, and the ctype table is
  the kernel's (`isupper` also covers the Latin-1 capitals 0xC0–0xD6
  and 0xD8–0xDE).
-/

/-! ## Constants from can327.c and the CAN UAPI headers -/

def ELM327_SIZE_RXBUF : Nat := 224
def ELM327_SIZE_TXBUF : Nat := 32

def ELM327_CAN_CONFIG_SEND_SFF : Nat := 0x8000
def ELM327_CAN_CONFIG_VARIABLE_DLC : Nat := 0x4000
def ELM327_CAN_CONFIG_RECV_BOTH_SFF_EFF : Nat := 0x2000

/-- The probe byte `y` (ELM327_DUMMY_CHAR). -/
def ELM327_DUMMY_CHAR : Nat := 0x79

/-- The prompt byte `>` (ELM327_READY_CHAR). -/
def ELM327_READY_CHAR : Nat := 0x3e

def CAN_EFF_FLAG : Nat := 0x80000000
def CAN_RTR_FLAG : Nat := 0x40000000
def CAN_ERR_FLAG : Nat := 0x20000000
def CAN_EFF_MASK : Nat := 0x1FFFFFFF
def CAN_SFF_MASK : Nat := 0x7FF

def CAN_ERR_CRTL : Nat := 0x4
def CAN_ERR_PROT : Nat := 0x8
def CAN_ERR_BUSOFF : Nat := 0x40
def CAN_ERR_BUSERROR : Nat := 0x80
def CAN_ERR_DLC : Nat := 8
def CAN_ERR_CRTL_RX_OVERFLOW : Nat := 0x1
def CAN_ERR_PROT_OVERLOAD : Nat := 0x20
def CAN_ERR_PROT_TX : Nat := 0x80

/-! ## Kernel library helpers used by the driver -/

/-- Kernel `hex_to_bin`: 0–15 for a hex digit, -1 otherwise. -/
def hex_to_bin (c : Nat) : Int :=
  if 48 ≤ c ∧ c ≤ 57 then (c : Int) - 48
  else if 97 ≤ c ∧ c ≤ 102 then (c : Int) - 87
  else if 65 ≤ c ∧ c ≤ 70 then (c : Int) - 55
  else -1

/-- Kernel ctype `isdigit`. -/
def kernel_isdigit (c : Nat) : Bool := 48 ≤ c && c ≤ 57

/-- Kernel ctype `isupper`: the `_U` entries of lib/ctype.c are
0x41–0x5A plus the Latin-1 capitals 0xC0–0xD6 and 0xD8–0xDE. -/
def kernel_isupper (c : Nat) : Bool :=
  (65 ≤ c && c ≤ 90) || (192 ≤ c && c ≤ 214) || (216 ≤ c && c ≤ 222)

/-- Truncation of a C `int` expression to the bit pattern of a 32-bit
two's-complement value, as a `Nat`. -/
def bits32 (x : Int) : Nat := (x % 4294967296).toNat

/-- Truncation of a C `int` expression on assignment to a `u8`. -/
def u8ofInt (x : Int) : Nat := (x % 256).toNat

/-- The C expression `(hex_to_bin a << 4) | hex_to_bin b` assigned to a
`u8` field (`elm327_parse_frame`'s payload bytes). -/
def hexPairByte (a b : Nat) : Nat :=
  (Nat.lor (bits32 (hex_to_bin a * 16)) (bits32 (hex_to_bin b))) % 256

/-- Uppercase hex digit for a nibble. -/
def hexDigit (n : Nat) : Char := if n < 10 then Char.ofNat (48 + n) else Char.ofNat (55 + n)

/-- Fixed-width uppercase hex rendering, matching printf at the
driver's call sites (every argument is below 16^w there). -/
def hexDigitsFixed : Nat → Nat → List Char
  | 0, _ => []
  | w + 1, n => hexDigitsFixed w (n / 16) ++ [hexDigit (n % 16)]

def hexUpper (w n : Nat) : String := String.mk (hexDigitsFixed w n)

/-- Byte values of a string literal (all driver literals are ASCII). -/
def strBytes (s : String) : List Nat := s.toList.map Char.toNat

/-! ## Data model -/

/-- struct can_frame: `data` is the 8-byte payload array. -/
structure CanFrame where
  can_id : Nat
  len : Nat
  data : List Nat
deriving DecidableEq

/-- The `elm->cmds_todo` bitmask (enum elm327_to_to_do_bits). -/
structure CmdsTodo where
  do_can_data : Bool
  do_canid_11bit : Bool
  do_canid_29bit_low : Bool
  do_canid_29bit_high : Bool
  do_can_config_part2 : Bool
  do_can_config : Bool
  do_responses : Bool
  do_silent_monitor : Bool
  do_init : Bool
deriving DecidableEq

/-- The C test `!elm->cmds_todo`. -/
def CmdsTodo.isEmpty (c : CmdsTodo) : Bool :=
  !(c.do_can_data || c.do_canid_11bit || c.do_canid_29bit_low || c.do_canid_29bit_high ||
    c.do_can_config_part2 || c.do_can_config || c.do_responses || c.do_silent_monitor ||
    c.do_init)

/-- The all-clear work mask. -/
def noCmds : CmdsTodo :=
  { do_can_data := false, do_canid_11bit := false, do_canid_29bit_low := false,
    do_canid_29bit_high := false, do_can_config_part2 := false, do_can_config := false,
    do_responses := false, do_silent_monitor := false, do_init := false }

inductive ElmState where
  | NOTINIT
  | GETDUMMYCHAR
  | GETPROMPT
  | RECEIVING
deriving DecidableEq

/-- The protocol-engine slice of struct can327.  `ctrlmode_listenonly`
stands for `elm->can.ctrlmode & CAN_CTRLMODE_LISTENONLY`. -/
structure Can327 where
  rxbuf : List Nat
  rxfill : Nat
  state : ElmState
  cmds_todo : CmdsTodo
  next_init_cmd : Nat
  can_frame_to_send : CanFrame
  can_config : Nat
  can_bitrate_divisor : Nat
  drop_next_line : Bool
  uart_side_failure : Bool
  ctrlmode_listenonly : Bool
deriving DecidableEq

/-- Observable effects: bytes handed to the tty, and skbs fed to the
network layer. -/
inductive Out where
  | tx (bytes : String)
  | frame (f : CanFrame)
deriving DecidableEq

/-! ## Transmit, kick, frame submission, fault latch -/

/-- `elm327_send`, protocol-engine view: when the channel is latched
nothing is sent; otherwise the bytes go out (the tty write is assumed
complete here; see `TxSide` for the partial-write accounting). -/
def elm327_send (s : Can327) (cmd : String) : Can327 × List Out :=
  if s.uart_side_failure then (s, []) else (s, [Out.tx cmd])

/-- `elm327_uart_side_failure`: latch, then report bus-off upward. -/
def elm327_uart_side_failure (s : Can327) : Can327 × List Out :=
  ({ s with uart_side_failure := true },
   [Out.frame { can_id := Nat.lor CAN_ERR_FLAG CAN_ERR_BUSOFF, len := CAN_ERR_DLC,
                data := List.replicate 8 0 }])

/-- `elm327_kick_into_cmd_mode`. -/
def elm327_kick_into_cmd_mode (s : Can327) : Can327 × List Out :=
  if s.state ≠ ElmState.GETDUMMYCHAR ∧ s.state ≠ ElmState.GETPROMPT then
    let p := elm327_send s "y"
    ({ p.1 with state := ElmState.GETDUMMYCHAR }, p.2)
  else (s, [])

/-- `elm327_send_frame`: schedule config/ID changes and the frame. -/
def elm327_send_frame (s : Can327) (f : CanFrame) : Can327 × List Out :=
  let s1 :=
    if s.can_frame_to_send.can_id ≠ f.can_id then
      let sa :=
        if (f.can_id &&& CAN_EFF_FLAG) ^^^ (s.can_frame_to_send.can_id &&& CAN_EFF_FLAG) ≠ 0 then
          { s with
            can_config :=
              (if f.can_id &&& CAN_EFF_FLAG ≠ 0 then 0 else ELM327_CAN_CONFIG_SEND_SFF) |||
              ELM327_CAN_CONFIG_VARIABLE_DLC ||| ELM327_CAN_CONFIG_RECV_BOTH_SFF_EFF |||
              s.can_bitrate_divisor,
            cmds_todo := { s.cmds_todo with do_can_config := true } }
        else s
      if f.can_id &&& CAN_EFF_FLAG ≠ 0 then
        { sa with cmds_todo := { sa.cmds_todo with
            do_canid_11bit := false, do_canid_29bit_low := true, do_canid_29bit_high := true } }
      else
        { sa with cmds_todo := { sa.cmds_todo with
            do_canid_11bit := true, do_canid_29bit_low := false, do_canid_29bit_high := false } }
    else s
  let s2 := { s1 with can_frame_to_send := f,
                      cmds_todo := { s1.cmds_todo with do_can_data := true } }
  elm327_kick_into_cmd_mode s2

/-- The fixed initialisation script (elm327_init_script). -/
def elm327_init_script : List String :=
  ["AT WS\r", "AT PP FF OFF\r", "AT M0\r", "AT AL\r", "AT BI\r", "AT CAF0\r", "AT CFC0\r",
   "AT CF 000\r", "AT CM 000\r", "AT E1\r", "AT H1\r", "AT L0\r", "AT SH 7DF\r", "AT ST FF\r",
   "AT AT0\r", "AT D1\r", "AT S1\r", "AT TP B\r"]

/-- `elm327_init` (channel-up): reset parser state, seed the work mask,
kick the adapter into command mode.  `bitrate` is
`elm->can.bittiming.bitrate`. -/
def elm327_init (s : Can327) (bitrate : Nat) : Can327 × List Out :=
  let d := 500000 / bitrate
  let s1 := { s with
    state := ElmState.NOTINIT,
    can_frame_to_send := { s.can_frame_to_send with can_id := 0x7df },
    rxfill := 0,
    drop_next_line := false,
    can_bitrate_divisor := d,
    can_config := ELM327_CAN_CONFIG_SEND_SFF ||| ELM327_CAN_CONFIG_VARIABLE_DLC |||
                  ELM327_CAN_CONFIG_RECV_BOTH_SFF_EFF ||| d,
    next_init_cmd := 0,
    cmds_todo := { s.cmds_todo with
      do_init := true, do_silent_monitor := true, do_responses := true,
      do_can_config := true } }
  elm327_kick_into_cmd_mode s1

/-! ## Command scheduler (prompt handler) -/

/-- Payload hexdump of `elm327_handle_prompt`'s CAN_DATA branch. -/
def payloadHex (data : List Nat) (len : Nat) : String :=
  String.join ((List.range len).map (fun i => hexUpper 2 (data.getD i 0)))

/-- `elm327_handle_prompt`: retire at most one work item, or enter
monitor mode when the mask is empty. -/
def elm327_handle_prompt (s : Can327) : Can327 × List Out :=
  let frame := s.can_frame_to_send
  if s.cmds_todo.isEmpty then
    let p := elm327_send s "ATMA\r"
    ({ p.1 with state := ElmState.RECEIVING }, p.2)
  else
    let step : String × Can327 :=
      if s.cmds_todo.do_init then
        (elm327_init_script.getD s.next_init_cmd "",
         let sa := { s with next_init_cmd := s.next_init_cmd + 1 }
         if s.next_init_cmd + 1 = elm327_init_script.length then
           { sa with cmds_todo := { sa.cmds_todo with do_init := false } }
         else sa)
      else if s.cmds_todo.do_silent_monitor then
        ((if s.ctrlmode_listenonly then "ATCSM1\r" else "ATCSM0\r"),
         { s with cmds_todo := { s.cmds_todo with do_silent_monitor := false } })
      else if s.cmds_todo.do_responses then
        ((if s.ctrlmode_listenonly then "ATR0\r" else "ATR1\r"),
         { s with cmds_todo := { s.cmds_todo with do_responses := false } })
      else if s.cmds_todo.do_can_config then
        ("ATPC\r",
         { s with cmds_todo := { s.cmds_todo with
             do_can_config := false, do_can_config_part2 := true } })
      else if s.cmds_todo.do_can_config_part2 then
        ("ATPB" ++ hexUpper 4 s.can_config ++ "\r",
         { s with cmds_todo := { s.cmds_todo with do_can_config_part2 := false } })
      else if s.cmds_todo.do_canid_29bit_high then
        ("ATCP" ++ hexUpper 2 ((frame.can_id &&& CAN_EFF_MASK) >>> 24) ++ "\r",
         { s with cmds_todo := { s.cmds_todo with do_canid_29bit_high := false } })
      else if s.cmds_todo.do_canid_29bit_low then
        ("ATSH" ++ hexUpper 6 (frame.can_id &&& CAN_EFF_MASK &&& 0xFFFFFF) ++ "\r",
         { s with cmds_todo := { s.cmds_todo with do_canid_29bit_low := false } })
      else if s.cmds_todo.do_canid_11bit then
        ("ATSH" ++ hexUpper 3 (frame.can_id &&& CAN_SFF_MASK) ++ "\r",
         { s with cmds_todo := { s.cmds_todo with do_canid_11bit := false } })
      else if s.cmds_todo.do_can_data then
        ((if frame.can_id &&& CAN_RTR_FLAG ≠ 0 then "ATRTR\r"
          else payloadHex frame.data frame.len ++ "\r"),
         { s with cmds_todo := { s.cmds_todo with do_can_data := false },
                  drop_next_line := true, state := ElmState.RECEIVING })
      else
        ("", s)  -- unreachable: the mask is non-empty, so one branch above fires
    elm327_send step.2 step.1

/-- Iterate the prompt handler, collecting the emitted commands. -/
def runPrompts : Nat → Can327 → Can327 × List Out
  | 0, s => (s, [])
  | n + 1, s =>
    let p := elm327_handle_prompt s
    let q := runPrompts n p.1
    (q.1, p.2 ++ q.2)

/-! ## Character classes and guarded buffer reads -/

/-- `elm327_is_ready_char`: masked prompt compare (the two high bits
are sometimes set by bad hardware). -/
def elm327_is_ready_char (c : Nat) : Bool := c &&& 0x3f == ELM327_READY_CHAR

/-- `can327_is_valid_rx_char`. -/
def can327_is_valid_rx_char (c : Nat) : Bool :=
  kernel_isdigit c || kernel_isupper c ||
  c == ELM327_DUMMY_CHAR || c == ELM327_READY_CHAR ||
  c == 0x3c || c == 0x61 || c == 0x62 || c == 0x76 ||
  c == 0x2e || c == 0x3f || c == 13 || c == 32

/-- A read of `rxbuf[i]` where the C index expression is an `int` that
is not structurally within the array: `none` marks an access outside
the 224-byte allocation (undefined behaviour in the C code). -/
def readRx (buf : List Nat) (i : Int) : Option Nat :=
  if 0 ≤ i ∧ i < (ELM327_SIZE_RXBUF : Int) then some (buf.getD i.toNat 0) else none

/-- `elm327_drop_bytes`: memmove the tail down; bytes past
`ELM327_SIZE_RXBUF - i` keep their stale values. -/
def elm327_drop_bytes (s : Can327) (i : Nat) : Can327 :=
  { s with rxbuf := s.rxbuf.drop i ++ s.rxbuf.drop (ELM327_SIZE_RXBUF - i),
           rxfill := s.rxfill - i }

/-! ## Line interpreter -/

/-- `check_len_then_cmp`: length compare, then byte compare. -/
def check_len_then_cmp (buf : List Nat) (mem_len : Nat) (str : String) : Bool :=
  mem_len == (strBytes str).length &&
  decide (buf.take (strBytes str).length = strBytes str)

/-- `elm327_parse_error`: the CAN error frame fed upward for an
adapter error line (the skb starts as `alloc_can_err_skb` leaves it:
`can_id = CAN_ERR_FLAG`, `len = CAN_ERR_DLC`, zeroed data). -/
def elm327_parse_error (buf : List Nat) (len : Nat) : CanFrame :=
  let base : CanFrame :=
    { can_id := CAN_ERR_FLAG, len := CAN_ERR_DLC, data := List.replicate 8 0 }
  if check_len_then_cmp buf len "UNABLE TO CONNECT" then
    base
  else if check_len_then_cmp buf len "BUFFER FULL" then
    { base with can_id := Nat.lor base.can_id CAN_ERR_CRTL,
                data := base.data.set 1 CAN_ERR_CRTL_RX_OVERFLOW }
  else if check_len_then_cmp buf len "BUS ERROR" then
    { base with can_id := Nat.lor base.can_id CAN_ERR_BUSERROR }
  else if check_len_then_cmp buf len "CAN ERROR" then
    { base with can_id := Nat.lor base.can_id CAN_ERR_PROT }
  else if check_len_then_cmp buf len "<RX ERROR" then
    { base with can_id := Nat.lor base.can_id CAN_ERR_PROT }
  else if check_len_then_cmp buf len "BUS BUSY" then
    { base with can_id := Nat.lor base.can_id CAN_ERR_PROT,
                data := base.data.set 2 CAN_ERR_PROT_OVERLOAD }
  else if check_len_then_cmp buf len "FB ERROR" then
    { base with can_id := Nat.lor base.can_id CAN_ERR_PROT,
                data := base.data.set 2 CAN_ERR_PROT_TX }
  else if len = 5 ∧ buf.take 3 = strBytes "ERR" then
    { base with can_id := Nat.lor base.can_id CAN_ERR_CRTL }
  else
    base

/-- Is `buf[i]` hex or space (the scan of `elm327_parse_frame`)? -/
def hexOrSpace (c : Nat) : Bool := !(decide (hex_to_bin c < 0)) || c == 32

/-- First index in 0..len failing hex-or-space, else len+1 (the
`hexlen` loop of `elm327_parse_frame`). -/
def frameHexlen (buf : List Nat) (len : Nat) : Nat :=
  (((List.range (len + 1)).find? (fun i => !(hexOrSpace (buf.getD i 0))))).getD (len + 1)

/-- Tail of `elm327_parse_frame` once the EFF/SFF layout is chosen.
The C code may compute `frame->len` from a non-hex nibble (    -1
truncated to u8), and would then take the heuristic-overflow branch;
the data-nibble loop writes at most `min len 8` payload bytes in the
model (`List.set` past index 7 is a no-op, where the C code would
overflow the 8-byte `data` array for a DLC nibble above 8 — no theorem
below exercises such a line). -/
def elm327_parse_frame_rest (buf : List Nat) (rxfill len hexlen datastart : Nat)
    (eff : Bool) : Int × List Out :=
  if hexlen < datastart then (-61, [])
  else
    let dlc := u8ofInt (hex_to_bin (buf.getD (datastart - 2) 0))
    let idbits : Nat :=
      if eff then
        Nat.lor (bits32 (hex_to_bin (buf.getD 0 0) * 2 ^ 28))
          (Nat.lor (bits32 (hex_to_bin (buf.getD 1 0) * 2 ^ 24))
            (Nat.lor (bits32 (hex_to_bin (buf.getD 3 0) * 2 ^ 20))
              (Nat.lor (bits32 (hex_to_bin (buf.getD 4 0) * 2 ^ 16))
                (Nat.lor (bits32 (hex_to_bin (buf.getD 6 0) * 2 ^ 12))
                  (Nat.lor (bits32 (hex_to_bin (buf.getD 7 0) * 2 ^ 8))
                    (Nat.lor (bits32 (hex_to_bin (buf.getD 9 0) * 2 ^ 4))
                      (bits32 (hex_to_bin (buf.getD 10 0)))))))))
      else
        Nat.lor (bits32 (hex_to_bin (buf.getD 0 0) * 2 ^ 8))
          (Nat.lor (bits32 (hex_to_bin (buf.getD 1 0) * 2 ^ 4))
            (bits32 (hex_to_bin (buf.getD 2 0))))
    let id1 : Nat := Nat.lor (if eff then CAN_EFF_FLAG else 0) idbits
    let rtr : Bool := decide (hexlen + 3 ≤ rxfill) &&
      buf.getD hexlen 0 == 82 && buf.getD (hexlen + 1) 0 == 84 &&
      buf.getD (hexlen + 2) 0 == 82
    let id2 : Nat := if rtr then Nat.lor id1 CAN_RTR_FLAG else id1
    if ¬ rtr ∧ hexlen < dlc * 3 + datastart then
      (-61, [Out.frame { can_id := Nat.lor CAN_ERR_FLAG CAN_ERR_CRTL, len := CAN_ERR_DLC,
                         data := (List.replicate 8 0).set 1 CAN_ERR_CRTL_RX_OVERFLOW }])
    else
      let payload := (List.range dlc).foldl
        (fun d i => d.set i (hexPairByte (buf.getD (datastart + 3 * i) 0)
                                         (buf.getD (datastart + 3 * i + 1) 0)))
        (List.replicate 8 0)
      (0, [Out.frame { can_id := id2, len := dlc, data := payload }])

/-- `elm327_parse_frame`: decode one ASCII dump line; result 0 on a
delivered frame, -ENODATA (-61) on reject. -/
def elm327_parse_frame (buf : List Nat) (rxfill len : Nat) : Int × List Out :=
  let hexlen := frameHexlen buf len
  let term := buf.getD hexlen 0
  if hexlen < len ∧ ¬ kernel_isdigit term ∧ ¬ kernel_isupper term ∧
     term ≠ 0x3c ∧ term ≠ 32 then
    (-61, [])
  else if buf.getD 2 0 = 32 ∧ buf.getD 5 0 = 32 ∧ buf.getD 8 0 = 32 ∧
          buf.getD 11 0 = 32 ∧ buf.getD 13 0 = 32 then
    elm327_parse_frame_rest buf rxfill len hexlen 14 true
  else if buf.getD 3 0 = 32 ∧ buf.getD 5 0 = 32 then
    elm327_parse_frame_rest buf rxfill len hexlen 6 false
  else
    (-61, [])

/-- `elm327_parse_line`. -/
def elm327_parse_line (s : Can327) (len : Nat) : Can327 × List Out :=
  if len = 0 then (s, [])
  else if s.drop_next_line then ({ s with drop_next_line := false }, [])
  else if s.rxbuf.getD 0 0 = 65 ∧ s.rxbuf.getD 1 0 = 84 then (s, [])
  else if s.state = ElmState.RECEIVING then
    let p := elm327_parse_frame s.rxbuf s.rxfill len
    if p.1 ≠ 0 then
      let errFrame := elm327_parse_error s.rxbuf len
      let k := elm327_kick_into_cmd_mode s
      (k.1, p.2 ++ [Out.frame errFrame] ++ k.2)
    else (s, p.2)
  else (s, [])

/-! ## Receive parser -/

/-- Result of a parser/ingest pass.  `oobRead` marks a read outside the
receive array (undefined behaviour of the C code); `outOfFuel` only
bounds the model's recursion and is unreachable from
`can327_ldisc_rx`'s fuel. -/
inductive RxRes where
  | ok (s : Can327) (outs : List Out)
  | oobRead
  | outOfFuel
deriving DecidableEq

/-- First CR position among the filled bytes, else `rxfill` (the `len`
loop of `elm327_parse_rxbuf`'s RECEIVING branch). -/
def firstCR (buf : List Nat) (fill : Nat) : Nat :=
  (((List.range fill).find? (fun i => buf.getD i 0 == 13))).getD fill

/-- The GETDUMMYCHAR scan: first byte that is the probe echo or a
prompt. -/
def scanDummy (buf : List Nat) (fill : Nat) : Option Nat :=
  (List.range fill).find?
    (fun i => buf.getD i 0 == ELM327_DUMMY_CHAR || elm327_is_ready_char (buf.getD i 0))

/-- `elm327_parse_rxbuf`.  The recursion (re-entry when a full line was
consumed and bytes remain) is bounded by `fuel`; each re-entry strictly
decreases `rxfill`, so `ELM327_SIZE_RXBUF + 1` fuel always suffices. -/
def elm327_parse_rxbuf : Nat → Can327 → RxRes
  | 0, _ => RxRes.outOfFuel
  | fuel + 1, s =>
    match s.state with
    | ElmState.NOTINIT => RxRes.ok { s with rxfill := 0 } []
    | ElmState.GETDUMMYCHAR =>
      match scanDummy s.rxbuf s.rxfill with
      | some i =>
        if s.rxbuf.getD i 0 = ELM327_DUMMY_CHAR then
          let p := elm327_send s "\r"
          RxRes.ok (elm327_drop_bytes { p.1 with state := ElmState.GETPROMPT } (i + 1)) p.2
        else
          let p := elm327_send s "y"
          RxRes.ok (elm327_drop_bytes p.1 (i + 1)) p.2
      | none => RxRes.ok (elm327_drop_bytes s s.rxfill) []
    | ElmState.GETPROMPT =>
      match readRx s.rxbuf ((s.rxfill : Int) - 1) with
      | none => RxRes.oobRead
      | some c =>
        if elm327_is_ready_char c then
          let p := elm327_handle_prompt s
          RxRes.ok { p.1 with rxfill := 0 } p.2
        else RxRes.ok { s with rxfill := 0 } []
    | ElmState.RECEIVING =>
      let len := firstCR s.rxbuf s.rxfill
      if len = ELM327_SIZE_RXBUF then
        let p := elm327_uart_side_failure s
        RxRes.ok p.1 p.2
      else if len = s.rxfill then
        match readRx s.rxbuf ((s.rxfill : Int) - 1) with
        | none => RxRes.oobRead
        | some c =>
          if elm327_is_ready_char c then
            let p := elm327_handle_prompt { s with rxfill := 0 }
            RxRes.ok p.1 p.2
          else RxRes.ok s []
      else
        let p := elm327_parse_line s len
        let s2 := elm327_drop_bytes p.1 (len + 1)
        if s2.rxfill ≠ 0 then
          match elm327_parse_rxbuf fuel s2 with
          | RxRes.ok s3 outs2 => RxRes.ok s3 (p.2 ++ outs2)
          | e => e
        else RxRes.ok s2 p.2

/-! ## Byte ingest -/

/-- The per-byte while loop of `can327_ldisc_rx`, followed by the
parser pass.  Input is the byte stream paired with the tty error
flags. -/
def can327_rx_loop (s : Can327) (outs : List Out) : List (Nat × Bool) → RxRes
  | [] =>
    match elm327_parse_rxbuf (ELM327_SIZE_RXBUF + 1) s with
    | RxRes.ok s1 outs1 => RxRes.ok s1 (outs ++ outs1)
    | e => e
  | (b, flag) :: rest =>
    if s.rxfill < ELM327_SIZE_RXBUF then
      if flag then
        let p := elm327_uart_side_failure s
        RxRes.ok p.1 (outs ++ p.2)
      else if b = 0 then
        can327_rx_loop s outs rest
      else if ¬ can327_is_valid_rx_char b then
        let p := elm327_uart_side_failure s
        RxRes.ok p.1 (outs ++ p.2)
      else
        can327_rx_loop { s with rxbuf := s.rxbuf.set s.rxfill b, rxfill := s.rxfill + 1 }
          outs rest
    else
      -- bytes remain with the buffer full: receive overflow
      let p := elm327_uart_side_failure s
      RxRes.ok p.1 (outs ++ p.2)

/-- `can327_ldisc_rx`. -/
def can327_ldisc_rx (s : Can327) (input : List (Nat × Bool)) : RxRes :=
  if s.uart_side_failure then RxRes.ok s [] else can327_rx_loop s [] input

/-! ## Byte-level transmit accounting (elm327_send / tx worker) -/

/-- The tx-side slice of struct can327: the latch, the unsent tail
(`txleft`/`txhead`) and the TTY_DO_WRITE_WAKEUP bit. -/
structure TxSide where
  uart_side_failure : Bool
  txleft : Nat
  txhead : Nat
  write_wakeup : Bool
deriving DecidableEq

/-- `elm327_uart_side_failure`, tx-side effects: latch and clear the
write-wakeup bit.  `txleft` is NOT touched. -/
def elm327_uart_side_failure_tx (t : TxSide) : TxSide :=
  { t with uart_side_failure := true, write_wakeup := false }

/-- `elm327_send`, byte-accounting view.  `written` is the tty write
result (negative on error, else the number of bytes consumed, at most
`len`).  The returned list holds the lengths of the tty write calls
issued. -/
def elm327_send_tx (t : TxSide) (len : Nat) (written : Int) : TxSide × List Nat :=
  if t.uart_side_failure then (t, [])
  else
    let t1 := { t with write_wakeup := true }
    if written < 0 then (elm327_uart_side_failure_tx t1, [len])
    else ({ t1 with txleft := len - written.toNat, txhead := written.toNat }, [len])

/-- `can327_ldisc_tx_worker`: drain the unsent tail when the tty
signals writable. -/
def can327_ldisc_tx_worker (t : TxSide) (written : Int) : TxSide × List Nat :=
  if t.uart_side_failure then (t, [])
  else if t.txleft ≠ 0 then
    if written < 0 then (elm327_uart_side_failure_tx t, [t.txleft])
    else
      let t1 := { t with txleft := t.txleft - written.toNat,
                         txhead := t.txhead + written.toNat }
      if t1.txleft = 0 then ({ t1 with write_wakeup := false }, [t.txleft])
      else (t1, [t.txleft])
  else ({ t with write_wakeup := false }, [])

/-! ## Observers on parse results -/

/-- Outputs of a parse/ingest result (empty for the failure markers). -/
def outsOf : RxRes → List Out
  | RxRes.ok _ o => o
  | _ => []

/-- Did the pass complete without hitting undefined behaviour? -/
def resIsOk : RxRes → Bool
  | RxRes.ok _ _ => true
  | _ => false

/-- Resulting state, with a fallback for the failure markers. -/
def stateOr (r : RxRes) (d : Can327) : Can327 :=
  match r with
  | RxRes.ok s _ => s
  | _ => d

/-- Is this output a tty transmission? -/
def Out.isTx : Out → Bool
  | Out.tx _ => true
  | Out.frame _ => false

/-! # Theorems -/

set_option maxRecDepth 16384

/-! ## Claim C4: empty work mask at a prompt -/

/-- C4: for every prompt observed while the pending-work mask is empty
(on a non-latched channel, the only kind that observes prompts), the
engine sends exactly the five bytes of `ATMA\r` and moves the state
machine to RECEIVING. -/
theorem c4_empty_mask_atma (s : Can327)
    (hmask : s.cmds_todo.isEmpty = true) (hok : s.uart_side_failure = false) :
    elm327_handle_prompt s = ({ s with state := ElmState.RECEIVING }, [Out.tx "ATMA\r"]) ∧
    ("ATMA\r").length = 5 := by
  constructor
  · simp [elm327_handle_prompt, elm327_send, hmask, hok]
  · rfl

/-- Witness for C4 at a concrete idle channel. -/
theorem c4_empty_mask_atma_witness :
    elm327_handle_prompt
      { rxbuf := List.replicate 224 0, rxfill := 0, state := ElmState.GETPROMPT,
        cmds_todo := noCmds, next_init_cmd := 18,
        can_frame_to_send := { can_id := 0x7df, len := 0, data := List.replicate 8 0 },
        can_config := 0xE001, can_bitrate_divisor := 1, drop_next_line := false,
        uart_side_failure := false, ctrlmode_listenonly := false } =
      ({ rxbuf := List.replicate 224 0, rxfill := 0, state := ElmState.RECEIVING,
         cmds_todo := noCmds, next_init_cmd := 18,
         can_frame_to_send := { can_id := 0x7df, len := 0, data := List.replicate 8 0 },
         can_config := 0xE001, can_bitrate_divisor := 1, drop_next_line := false,
         uart_side_failure := false, ctrlmode_listenonly := false },
       [Out.tx "ATMA\r"]) ∧
    ("ATMA\r").length = 5 :=
  c4_empty_mask_atma _ (by decide) rfl

/-! ## Claim C3: the silent-monitor command -/

/-- C3 counterexample: with listen-only NOT set, retiring
SILENT_MONITOR sends `ATCSM0\r`, not `ATCSM1\r` as the claim states
(the code computes `!(!(ctrlmode & CAN_CTRLMODE_LISTENONLY))`, i.e. 1
exactly when listen-only IS set). -/
theorem c3_counterexample :
    (elm327_handle_prompt
      { rxbuf := List.replicate 224 0, rxfill := 0, state := ElmState.GETPROMPT,
        cmds_todo := { noCmds with do_silent_monitor := true }, next_init_cmd := 18,
        can_frame_to_send := { can_id := 0x7df, len := 0, data := List.replicate 8 0 },
        can_config := 0xE001, can_bitrate_divisor := 1, drop_next_line := false,
        uart_side_failure := false, ctrlmode_listenonly := false }).2 =
      [Out.tx "ATCSM0\r"] ∧
    "ATCSM0\r" ≠ "ATCSM1\r" := by
  decide

/-- C3 amended: when the scheduler retires SILENT_MONITOR at a prompt,
the command is `ATCSM1\r` if listen-only IS set and `ATCSM0\r` if it
is not. -/
theorem c3_amended_silent_monitor (s : Can327)
    (hok : s.uart_side_failure = false)
    (hinit : s.cmds_todo.do_init = false)
    (hsm : s.cmds_todo.do_silent_monitor = true) :
    elm327_handle_prompt s =
      ({ s with cmds_todo := { s.cmds_todo with do_silent_monitor := false } },
       [Out.tx (if s.ctrlmode_listenonly then "ATCSM1\r" else "ATCSM0\r")]) := by
  have hne : s.cmds_todo.isEmpty = false := by
    simp [CmdsTodo.isEmpty, hsm]
  simp [elm327_handle_prompt, elm327_send, hne, hinit, hsm, hok]

/-- Witness for the amended C3 at a listen-only channel. -/
theorem c3_amended_silent_monitor_witness :
    elm327_handle_prompt
      { rxbuf := List.replicate 224 0, rxfill := 0, state := ElmState.GETPROMPT,
        cmds_todo := { noCmds with do_silent_monitor := true }, next_init_cmd := 18,
        can_frame_to_send := { can_id := 0x7df, len := 0, data := List.replicate 8 0 },
        can_config := 0xE001, can_bitrate_divisor := 1, drop_next_line := false,
        uart_side_failure := false, ctrlmode_listenonly := true } =
      ({ rxbuf := List.replicate 224 0, rxfill := 0, state := ElmState.GETPROMPT,
         cmds_todo := noCmds, next_init_cmd := 18,
         can_frame_to_send := { can_id := 0x7df, len := 0, data := List.replicate 8 0 },
         can_config := 0xE001, can_bitrate_divisor := 1, drop_next_line := false,
         uart_side_failure := false, ctrlmode_listenonly := true },
       [Out.tx "ATCSM1\r"]) := by
  have h := c3_amended_silent_monitor
    { rxbuf := List.replicate 224 0, rxfill := 0, state := ElmState.GETPROMPT,
      cmds_todo := { noCmds with do_silent_monitor := true }, next_init_cmd := 18,
      can_frame_to_send := { can_id := 0x7df, len := 0, data := List.replicate 8 0 },
      can_config := 0xE001, can_bitrate_divisor := 1, drop_next_line := false,
      uart_side_failure := false, ctrlmode_listenonly := true }
    rfl rfl rfl
  simpa using h

/-! ## Claim C9: transmit buffer after the failure latch -/

/-- C9 counterexample: a partial tty write leaves `txleft = 3`; the
failure latch then trips (e.g. on a stray rx character) and the unsent
tail is still 3, not 0 — `elm327_uart_side_failure` never clears
`txleft`. -/
theorem c9_counterexample :
    ((elm327_send_tx
        { uart_side_failure := false, txleft := 0, txhead := 0, write_wakeup := false }
        5 2).1.txleft = 3) ∧
    (elm327_uart_side_failure_tx
       (elm327_send_tx
         { uart_side_failure := false, txleft := 0, txhead := 0, write_wakeup := false }
         5 2).1).uart_side_failure = true ∧
    (elm327_uart_side_failure_tx
       (elm327_send_tx
         { uart_side_failure := false, txleft := 0, txhead := 0, write_wakeup := false }
         5 2).1).txleft = 3 ∧
    (3 : Nat) ≠ 0 := by
  decide

/-- C9 amended: once the failure latch is set, no further tty write is
issued — `elm327_send` and the tx worker short-circuit, leaving the
state untouched — and a latched channel's byte ingest is a no-op; the
unsent-tail count, however, need not be zero. -/
theorem c9_amended_no_tx_after_latch :
    (∀ (t : TxSide) (len : Nat) (w : Int), t.uart_side_failure = true →
       elm327_send_tx t len w = (t, [])) ∧
    (∀ (t : TxSide) (w : Int), t.uart_side_failure = true →
       can327_ldisc_tx_worker t w = (t, [])) ∧
    (∀ t : TxSide, (elm327_uart_side_failure_tx t).uart_side_failure = true) ∧
    (∀ (s : Can327) (input : List (Nat × Bool)), s.uart_side_failure = true →
       can327_ldisc_rx s input = RxRes.ok s []) := by
  refine ⟨?_, ?_, ?_, ?_⟩
  · intro t len w h
    simp [elm327_send_tx, h]
  · intro t w h
    simp [can327_ldisc_tx_worker, h]
  · intro t
    rfl
  · intro s input h
    simp [can327_ldisc_rx, h]

/-- Witness for the amended C9 at a latched channel with a pending
tail. -/
theorem c9_amended_no_tx_after_latch_witness :
    elm327_send_tx
      { uart_side_failure := true, txleft := 3, txhead := 2, write_wakeup := false } 5 5 =
      ({ uart_side_failure := true, txleft := 3, txhead := 2, write_wakeup := false }, []) ∧
    can327_ldisc_tx_worker
      { uart_side_failure := true, txleft := 3, txhead := 2, write_wakeup := false } 3 =
      ({ uart_side_failure := true, txleft := 3, txhead := 2, write_wakeup := false }, []) :=
  ⟨c9_amended_no_tx_after_latch.1 _ 5 5 rfl, c9_amended_no_tx_after_latch.2.1 _ 3 rfl⟩

/-! ## Claim C8, counterexample part: the receive capacity -/

/-- C8 counterexample: the receive buffer capacity of the cited module
is 224 bytes, so the claim's bound R is at least 256 fails. -/
theorem c8_counterexample : ELM327_SIZE_RXBUF = 224 ∧ ¬ (256 ≤ ELM327_SIZE_RXBUF) := by
  decide

/-! ## Claim C7: corrupted prompt byte at ingest -/

/-- C7: the masked prompt compare does accept the byte 0xFE, but the
ingest filter `can327_is_valid_rx_char` rejects it, so a corrupted
prompt byte arriving from the transport in the prompt-waiting state
trips the failure latch and the prompt handler never runs: the channel
emits only the bus-off error frame and latches. -/
theorem c7_code_evaluation :
    elm327_is_ready_char 0xFE = true ∧
    can327_is_valid_rx_char 0xFE = false ∧
    (can327_ldisc_rx
       { rxbuf := List.replicate 224 0, rxfill := 0, state := ElmState.GETPROMPT,
         cmds_todo := noCmds, next_init_cmd := 18,
         can_frame_to_send := { can_id := 0x7df, len := 0, data := List.replicate 8 0 },
         can_config := 0xE001, can_bitrate_divisor := 1, drop_next_line := false,
         uart_side_failure := false, ctrlmode_listenonly := false }
       [(0xFE, false)] =
     RxRes.ok
       { rxbuf := List.replicate 224 0, rxfill := 0, state := ElmState.GETPROMPT,
         cmds_todo := noCmds, next_init_cmd := 18,
         can_frame_to_send := { can_id := 0x7df, len := 0, data := List.replicate 8 0 },
         can_config := 0xE001, can_bitrate_divisor := 1, drop_next_line := false,
         uart_side_failure := true, ctrlmode_listenonly := false }
       [Out.frame { can_id := Nat.lor CAN_ERR_FLAG CAN_ERR_BUSOFF, len := CAN_ERR_DLC,
                    data := List.replicate 8 0 }]) ∧
    (outsOf (can327_ldisc_rx
       { rxbuf := List.replicate 224 0, rxfill := 0, state := ElmState.GETPROMPT,
         cmds_todo := noCmds, next_init_cmd := 18,
         can_frame_to_send := { can_id := 0x7df, len := 0, data := List.replicate 8 0 },
         can_config := 0xE001, can_bitrate_divisor := 1, drop_next_line := false,
         uart_side_failure := false, ctrlmode_listenonly := false }
       [(0xFE, false)])).all (fun o => ! o.isTx) = true := by
  decide

/-! ## Claim C10: the prompt check with an empty buffer -/

/-- C10: from the probe-echo state, consuming the echo leaves the
channel in GETPROMPT with an empty buffer; a subsequent ingest pass of
a single NUL byte appends nothing yet still runs the parser, whose
prompt check evaluates `rxbuf[rxfill - 1]` with `rxfill = 0`, i.e. the
out-of-bounds index -1 (`readRx` yields `none` and the pass is marked
as undefined behaviour). -/
theorem c10_code_evaluation :
    (can327_ldisc_rx
       { rxbuf := List.replicate 224 0, rxfill := 0, state := ElmState.GETDUMMYCHAR,
         cmds_todo := noCmds, next_init_cmd := 18,
         can_frame_to_send := { can_id := 0x7df, len := 0, data := List.replicate 8 0 },
         can_config := 0xE001, can_bitrate_divisor := 1, drop_next_line := false,
         uart_side_failure := false, ctrlmode_listenonly := false }
       [(ELM327_DUMMY_CHAR, false)] =
     RxRes.ok
       { rxbuf := List.replicate 224 0, rxfill := 0, state := ElmState.GETPROMPT,
         cmds_todo := noCmds, next_init_cmd := 18,
         can_frame_to_send := { can_id := 0x7df, len := 0, data := List.replicate 8 0 },
         can_config := 0xE001, can_bitrate_divisor := 1, drop_next_line := false,
         uart_side_failure := false, ctrlmode_listenonly := false }
       [Out.tx "\r"]) ∧
    readRx (List.replicate 224 0) ((0 : Int) - 1) = none ∧
    can327_ldisc_rx
      { rxbuf := List.replicate 224 0, rxfill := 0, state := ElmState.GETPROMPT,
        cmds_todo := noCmds, next_init_cmd := 18,
        can_frame_to_send := { can_id := 0x7df, len := 0, data := List.replicate 8 0 },
        can_config := 0xE001, can_bitrate_divisor := 1, drop_next_line := false,
        uart_side_failure := false, ctrlmode_listenonly := false }
      [(0, false)] = RxRes.oobRead := by
  decide

/-! ## Claim C1: transmitting an 11-bit data frame -/

/-- C1: with init complete (empty work mask, staged ID 0x7DF, monitor
mode), submitting an 11-bit frame ID 0x123 / DLC 2 / payload AB CD
sends the probe byte `y` at submission and then, one per subsequent
prompt, exactly `ATSH123\r` and `ABCD\r`; no ATPC, ATPB, ATCP or
6-hex-digit ATSH command is emitted for this frame. -/
theorem c1_tx_11bit_sequence :
    let s0 : Can327 :=
      { rxbuf := List.replicate 224 0, rxfill := 0, state := ElmState.RECEIVING,
        cmds_todo := noCmds, next_init_cmd := 18,
        can_frame_to_send := { can_id := 0x7df, len := 0, data := List.replicate 8 0 },
        can_config := 0xE001, can_bitrate_divisor := 1, drop_next_line := false,
        uart_side_failure := false, ctrlmode_listenonly := false }
    let f : CanFrame := { can_id := 0x123, len := 2, data := [0xAB, 0xCD, 0, 0, 0, 0, 0, 0] }
    let sub := elm327_send_frame s0 f
    sub.2 = [Out.tx "y"] ∧
    (runPrompts 2 sub.1).2 = [Out.tx "ATSH123\r", Out.tx "ABCD\r"] ∧
    (runPrompts 2 sub.1).1.cmds_todo.isEmpty = true ∧
    (["y", "ATSH123\r", "ABCD\r"].all (fun c =>
        decide (c ≠ "ATPC\r") &&
        decide ((strBytes c).take 4 ≠ strBytes "ATPB") &&
        decide ((strBytes c).take 4 ≠ strBytes "ATCP") &&
        !(decide ((strBytes c).take 4 = strBytes "ATSH") &&
          decide ((strBytes c).length = 11)))) = true := by
  decide

/-! ## Claim C2: receiving a 29-bit frame line -/

/-- C2 counterexample: in RECEIVING, ingesting the 19-character line
`18 DB 33 F1 2 AB CD` followed by CR does NOT deliver the decoded CAN
frame: `hexlen` is 19 while the payload check requires
`3*DLC + datastart = 20`, so the code emits the heuristic RX-overflow
error frame, then the generic unclassified error frame, then kicks the
channel back to command mode with the probe byte — and no frame with
identifier 0x18DB33F1 is delivered. -/
theorem c2_counterexample :
    let s0 : Can327 :=
      { rxbuf := List.replicate 224 0, rxfill := 0, state := ElmState.RECEIVING,
        cmds_todo := noCmds, next_init_cmd := 18,
        can_frame_to_send := { can_id := 0x7df, len := 0, data := List.replicate 8 0 },
        can_config := 0xE001, can_bitrate_divisor := 1, drop_next_line := false,
        uart_side_failure := false, ctrlmode_listenonly := false }
    let input := (strBytes "18 DB 33 F1 2 AB CD" ++ [13]).map (fun b => (b, false))
    outsOf (can327_ldisc_rx s0 input) =
      [Out.frame { can_id := Nat.lor CAN_ERR_FLAG CAN_ERR_CRTL, len := CAN_ERR_DLC,
                   data := (List.replicate 8 0).set 1 CAN_ERR_CRTL_RX_OVERFLOW },
       Out.frame { can_id := CAN_ERR_FLAG, len := CAN_ERR_DLC, data := List.replicate 8 0 },
       Out.tx "y"] ∧
    ¬ (Out.frame { can_id := Nat.lor CAN_EFF_FLAG 0x18DB33F1, len := 2,
                   data := [0xAB, 0xCD, 0, 0, 0, 0, 0, 0] }
        ∈ outsOf (can327_ldisc_rx s0 input)) := by
  decide

/-- C2 amended: the dump line must carry the trailing space the
adapter prints after the last payload byte: ingesting the 20-character
line `18 DB 33 F1 2 AB CD ` followed by CR delivers exactly one CAN
frame upward, with the EFF flag set, identifier 0x18DB33F1, DLC 2 and
payload AB CD, and no error frame. -/
theorem c2_amended_rx_29bit :
    let s0 : Can327 :=
      { rxbuf := List.replicate 224 0, rxfill := 0, state := ElmState.RECEIVING,
        cmds_todo := noCmds, next_init_cmd := 18,
        can_frame_to_send := { can_id := 0x7df, len := 0, data := List.replicate 8 0 },
        can_config := 0xE001, can_bitrate_divisor := 1, drop_next_line := false,
        uart_side_failure := false, ctrlmode_listenonly := false }
    let input := (strBytes "18 DB 33 F1 2 AB CD " ++ [13]).map (fun b => (b, false))
    outsOf (can327_ldisc_rx s0 input) =
      [Out.frame { can_id := Nat.lor CAN_EFF_FLAG 0x18DB33F1, len := 2,
                   data := [0xAB, 0xCD, 0, 0, 0, 0, 0, 0] }] ∧
    resIsOk (can327_ldisc_rx s0 input) = true := by
  decide

/-! ## Claim C5: the error-string classifier -/

/-- A length mismatch alone makes `check_len_then_cmp` fail. -/
theorem check_len_then_cmp_of_len_ne (buf : List Nat) (mem_len : Nat) (str : String)
    (h : mem_len ≠ (strBytes str).length) : check_len_then_cmp buf mem_len str = false := by
  simp [check_len_then_cmp, h]

/-- C5: the classifier fires a table entry only on an exact whole-line
match (length AND every byte — the strict six-byte `CAN ER` does not
trigger); a 5-character line beginning `ERR` yields the controller
error frame; and a line matching no table entry still yields the
generic, unclassified error frame. -/
theorem c5_error_classifier :
    (∀ (buf : List Nat) (mem_len : Nat) (str : String),
       check_len_then_cmp buf mem_len str = true ↔
         (mem_len = (strBytes str).length ∧
          buf.take (strBytes str).length = strBytes str)) ∧
    check_len_then_cmp (strBytes "CAN ER") 6 "CAN ERROR" = false ∧
    (∀ buf : List Nat, buf.take 3 = strBytes "ERR" →
       elm327_parse_error buf 5 =
         { can_id := Nat.lor CAN_ERR_FLAG CAN_ERR_CRTL, len := CAN_ERR_DLC,
           data := List.replicate 8 0 }) ∧
    (∀ (buf : List Nat) (len : Nat),
       (∀ str ∈ ["UNABLE TO CONNECT", "BUFFER FULL", "BUS ERROR", "CAN ERROR",
                 "<RX ERROR", "BUS BUSY", "FB ERROR"],
          check_len_then_cmp buf len str = false) →
       ¬ (len = 5 ∧ buf.take 3 = strBytes "ERR") →
       elm327_parse_error buf len =
         { can_id := CAN_ERR_FLAG, len := CAN_ERR_DLC, data := List.replicate 8 0 }) := by
  refine ⟨?_, by decide, ?_, ?_⟩
  · intro buf mem_len str
    simp [check_len_then_cmp]
  · intro buf h
    have e1 : check_len_then_cmp buf 5 "UNABLE TO CONNECT" = false :=
      check_len_then_cmp_of_len_ne _ _ _ (by decide)
    have e2 : check_len_then_cmp buf 5 "BUFFER FULL" = false :=
      check_len_then_cmp_of_len_ne _ _ _ (by decide)
    have e3 : check_len_then_cmp buf 5 "BUS ERROR" = false :=
      check_len_then_cmp_of_len_ne _ _ _ (by decide)
    have e4 : check_len_then_cmp buf 5 "CAN ERROR" = false :=
      check_len_then_cmp_of_len_ne _ _ _ (by decide)
    have e5 : check_len_then_cmp buf 5 "<RX ERROR" = false :=
      check_len_then_cmp_of_len_ne _ _ _ (by decide)
    have e6 : check_len_then_cmp buf 5 "BUS BUSY" = false :=
      check_len_then_cmp_of_len_ne _ _ _ (by decide)
    have e7 : check_len_then_cmp buf 5 "FB ERROR" = false :=
      check_len_then_cmp_of_len_ne _ _ _ (by decide)
    simp [elm327_parse_error, e1, e2, e3, e4, e5, e6, e7, h]
  · intro buf len hlit herr
    have e1 := hlit "UNABLE TO CONNECT" (by simp)
    have e2 := hlit "BUFFER FULL" (by simp)
    have e3 := hlit "BUS ERROR" (by simp)
    have e4 := hlit "CAN ERROR" (by simp)
    have e5 := hlit "<RX ERROR" (by simp)
    have e6 := hlit "BUS BUSY" (by simp)
    have e7 := hlit "FB ERROR" (by simp)
    simp [elm327_parse_error, e1, e2, e3, e4, e5, e6, e7, herr]

/-- Witness for C5: an exact `BUS ERROR` line matches, an `ERR12` line
classifies as controller error, and the 5-byte line `NO.? ` matches no
entry and yields the generic frame. -/
theorem c5_error_classifier_witness :
    check_len_then_cmp (strBytes "BUS ERROR") 9 "BUS ERROR" = true ∧
    elm327_parse_error (strBytes "ERR12") 5 =
      { can_id := Nat.lor CAN_ERR_FLAG CAN_ERR_CRTL, len := CAN_ERR_DLC,
        data := List.replicate 8 0 } ∧
    elm327_parse_error (strBytes "NO.? ") 5 =
      { can_id := CAN_ERR_FLAG, len := CAN_ERR_DLC, data := List.replicate 8 0 } :=
  ⟨(c5_error_classifier.1 (strBytes "BUS ERROR") 9 "BUS ERROR").mpr (by decide),
   c5_error_classifier.2.2.1 (strBytes "ERR12") (by decide),
   c5_error_classifier.2.2.2 (strBytes "NO.? ") 5 (by decide) (by decide)⟩

/-! ## Claim C6: 29-bit ID programming -/

/-- Setting the EFF flag above a 29-bit identifier and masking it back
out recovers the identifier. -/
theorem effOr_and_effMask {id : Nat} (h : id ≤ CAN_EFF_MASK) :
    (CAN_EFF_FLAG ||| id) &&& CAN_EFF_MASK = id := by
  have hm : CAN_EFF_MASK = 2 ^ 29 - 1 := by decide
  rw [hm, Nat.and_pow_two_sub_one_eq_mod]
  apply Nat.eq_of_testBit_eq
  intro i
  rw [Nat.testBit_mod_two_pow, Nat.testBit_or]
  by_cases hi : i < 29
  · have hf : Nat.testBit CAN_EFF_FLAG i = false := by
      have : CAN_EFF_FLAG = 2 ^ 31 := by decide
      rw [this, Nat.testBit_two_pow]
      simp
      omega
    simp [hi, hf]
  · have hb : Nat.testBit id i = false := by
      apply Nat.testBit_lt_two_pow
      have h29 : id < 2 ^ 29 := by
        have : CAN_EFF_MASK < 2 ^ 29 := by decide
        omega
      calc id < 2 ^ 29 := h29
        _ ≤ 2 ^ i := Nat.pow_le_pow_right (by omega) (by omega)
    simp [hi, hb]

/-- The EFF bit of a flagged identifier. -/
theorem effOr_and_effFlag {id : Nat} (h : id ≤ CAN_EFF_MASK) :
    (CAN_EFF_FLAG ||| id) &&& CAN_EFF_FLAG = CAN_EFF_FLAG := by
  have hf : CAN_EFF_FLAG = 2 ^ 31 := by decide
  rw [hf, Nat.and_two_pow]
  have ht : Nat.testBit (2 ^ 31 ||| id) 31 = true := by
    rw [Nat.testBit_or, Nat.testBit_two_pow_self]
    rfl
  rw [ht]
  simp

/-- An identifier without the EFF bit differs from any flagged one. -/
theorem sff_ne_effOr {sid id : Nat} (hs : sid &&& CAN_EFF_FLAG = 0)
    (h : id ≤ CAN_EFF_MASK) : sid ≠ CAN_EFF_FLAG ||| id := by
  intro he
  rw [he, effOr_and_effFlag h] at hs
  exact absurd hs (by decide)

/-- The high byte of a 29-bit identifier fits in 8 bits. -/
theorem shiftRight24_and_ff {id : Nat} (h : id ≤ CAN_EFF_MASK) :
    (id >>> 24) &&& 0xFF = id >>> 24 := by
  have hlt : id >>> 24 < 256 := by
    rw [Nat.shiftRight_eq_div_pow]
    have : id / 2 ^ 24 ≤ CAN_EFF_MASK / 2 ^ 24 := Nat.div_le_div_right h
    have hc : CAN_EFF_MASK / 2 ^ 24 = 31 := by decide
    omega
  have hff : (0xFF : Nat) = 2 ^ 8 - 1 := by decide
  rw [hff, Nat.and_pow_two_sub_one_eq_mod, Nat.mod_eq_of_lt hlt]

/-- C6: for every 29-bit identifier requiring a format switch (staged
ID standard-frame, submitted ID extended), the scheduled programming
commands come out in the order config (ATPC, then ATPB with the 4
uppercase hex digits of the recomputed config word) before high (ATCP
with the 2 hex digits of `(id >> 24) & 0xFF`) before low (ATSH with
the 6 hex digits of `id & 0xFFFFFF`), each CR-terminated.  `d ≤ 255`
reflects the `u8` bitrate-divisor field, under which the fixed-width
hex rendering coincides with printf's. -/
theorem c6_id29_programming
    (id d sid slen nic cfg0 rfill flen : Nat) (sdata fdata buf : List Nat)
    (dnl lo : Bool)
    (hid : id ≤ CAN_EFF_MASK) (hd : d ≤ 255) (hsid : sid &&& CAN_EFF_FLAG = 0) :
    let s0 : Can327 :=
      { rxbuf := buf, rxfill := rfill, state := ElmState.RECEIVING,
        cmds_todo := noCmds, next_init_cmd := nic,
        can_frame_to_send := { can_id := sid, len := slen, data := sdata },
        can_config := cfg0, can_bitrate_divisor := d, drop_next_line := dnl,
        uart_side_failure := false, ctrlmode_listenonly := lo }
    let f : CanFrame := { can_id := CAN_EFF_FLAG ||| id, len := flen, data := fdata }
    let sub := elm327_send_frame s0 f
    sub.2 = [Out.tx "y"] ∧
    sub.1.can_config =
      ELM327_CAN_CONFIG_VARIABLE_DLC ||| ELM327_CAN_CONFIG_RECV_BOTH_SFF_EFF ||| d ∧
    (runPrompts 4 sub.1).2 =
      [Out.tx "ATPC\r",
       Out.tx ("ATPB" ++
         hexUpper 4 (ELM327_CAN_CONFIG_VARIABLE_DLC |||
                     ELM327_CAN_CONFIG_RECV_BOTH_SFF_EFF ||| d) ++ "\r"),
       Out.tx ("ATCP" ++ hexUpper 2 ((id >>> 24) &&& 0xFF) ++ "\r"),
       Out.tx ("ATSH" ++ hexUpper 6 (id &&& 0xFFFFFF) ++ "\r")] := by
  intro s0 f sub
  have hne' : sid ≠ CAN_EFF_FLAG ||| id := sff_ne_effOr hsid hid
  have heff' : (CAN_EFF_FLAG ||| id) &&& CAN_EFF_FLAG ≠ 0 := by
    rw [effOr_and_effFlag hid]; decide
  have hxor' : ((CAN_EFF_FLAG ||| id) &&& CAN_EFF_FLAG) ^^^ (sid &&& CAN_EFF_FLAG) ≠ 0 := by
    rw [effOr_and_effFlag hid, hsid, Nat.xor_zero]; decide
  have hzor : (0 : Nat) ||| ELM327_CAN_CONFIG_VARIABLE_DLC = ELM327_CAN_CONFIG_VARIABLE_DLC := by
    decide
  simp only [s0, f, sub, elm327_send_frame, elm327_kick_into_cmd_mode, elm327_send,
    runPrompts, elm327_handle_prompt, CmdsTodo.isEmpty, noCmds]
  simp [hne', hxor', heff', hzor, effOr_and_effMask hid, shiftRight24_and_ff hid]

/-- Witness for C6 at the spec's example: staged 0x123, submitted
29-bit 0x18DB33F1, divisor 1. -/
theorem c6_id29_programming_witness :
    let s0 : Can327 :=
      { rxbuf := List.replicate 224 0, rxfill := 0, state := ElmState.RECEIVING,
        cmds_todo := noCmds, next_init_cmd := 18,
        can_frame_to_send := { can_id := 0x123, len := 0, data := List.replicate 8 0 },
        can_config := 0xE001, can_bitrate_divisor := 1, drop_next_line := false,
        uart_side_failure := false, ctrlmode_listenonly := false }
    let f : CanFrame :=
      { can_id := CAN_EFF_FLAG ||| 0x18DB33F1, len := 1, data := [0x02, 0, 0, 0, 0, 0, 0, 0] }
    let sub := elm327_send_frame s0 f
    sub.2 = [Out.tx "y"] ∧
    sub.1.can_config =
      ELM327_CAN_CONFIG_VARIABLE_DLC ||| ELM327_CAN_CONFIG_RECV_BOTH_SFF_EFF ||| 1 ∧
    (runPrompts 4 sub.1).2 =
      [Out.tx "ATPC\r",
       Out.tx ("ATPB" ++
         hexUpper 4 (ELM327_CAN_CONFIG_VARIABLE_DLC |||
                     ELM327_CAN_CONFIG_RECV_BOTH_SFF_EFF ||| 1) ++ "\r"),
       Out.tx ("ATCP" ++ hexUpper 2 ((0x18DB33F1 >>> 24) &&& 0xFF) ++ "\r"),
       Out.tx ("ATSH" ++ hexUpper 6 (0x18DB33F1 &&& 0xFFFFFF) ++ "\r")] :=
  c6_id29_programming 0x18DB33F1 1 0x123 0 18 0xE001 0 1
    (List.replicate 8 0) [0x02, 0, 0, 0, 0, 0, 0, 0] (List.replicate 224 0)
    false false (by decide) (by decide) (by decide)


/-! ## Claim C8, amended part: fill-count invariant and overflow latch -/

theorem elm327_send_fst (s : Can327) (c : String) : (elm327_send s c).1 = s := by
  unfold elm327_send
  split <;> rfl

theorem elm327_kick_rxfill (s : Can327) :
    (elm327_kick_into_cmd_mode s).1.rxfill = s.rxfill := by
  unfold elm327_kick_into_cmd_mode
  split <;> simp [elm327_send_fst]

theorem elm327_handle_prompt_rxfill (s : Can327) :
    (elm327_handle_prompt s).1.rxfill = s.rxfill := by
  unfold elm327_handle_prompt
  dsimp only
  by_cases h0 : CmdsTodo.isEmpty s.cmds_todo = true
  · rw [if_pos h0, elm327_send_fst]
  · rw [if_neg h0, elm327_send_fst]
    by_cases h1 : s.cmds_todo.do_init = true
    · rw [if_pos h1]
      dsimp only
      split <;> rfl
    · rw [if_neg h1]
      by_cases h2 : s.cmds_todo.do_silent_monitor = true
      · rw [if_pos h2]
      · rw [if_neg h2]
        by_cases h3 : s.cmds_todo.do_responses = true
        · rw [if_pos h3]
        · rw [if_neg h3]
          by_cases h4 : s.cmds_todo.do_can_config = true
          · rw [if_pos h4]
          · rw [if_neg h4]
            by_cases h5 : s.cmds_todo.do_can_config_part2 = true
            · rw [if_pos h5]
            · rw [if_neg h5]
              by_cases h6 : s.cmds_todo.do_canid_29bit_high = true
              · rw [if_pos h6]
              · rw [if_neg h6]
                by_cases h7 : s.cmds_todo.do_canid_29bit_low = true
                · rw [if_pos h7]
                · rw [if_neg h7]
                  by_cases h8 : s.cmds_todo.do_canid_11bit = true
                  · rw [if_pos h8]
                  · rw [if_neg h8]
                    by_cases h9 : s.cmds_todo.do_can_data = true
                    · rw [if_pos h9]
                    · rw [if_neg h9]

theorem elm327_parse_line_rxfill (s : Can327) (len : Nat) :
    (elm327_parse_line s len).1.rxfill = s.rxfill := by
  unfold elm327_parse_line
  split
  · rfl
  · split
    · rfl
    · split
      · rfl
      · split
        · dsimp only
          split
          · simp [elm327_kick_rxfill]
          · rfl
        · rfl

theorem elm327_parse_rxbuf_rxfill_le (fuel : Nat) :
    ∀ (s s1 : Can327) (o : List Out),
      elm327_parse_rxbuf fuel s = RxRes.ok s1 o → s1.rxfill ≤ s.rxfill := by
  induction fuel with
  | zero =>
    intro s s1 o h
    simp [elm327_parse_rxbuf] at h
  | succ n ih =>
    intro s s1 o h
    rw [elm327_parse_rxbuf] at h
    cases hst : s.state <;> rw [hst] at h
    · -- NOTINIT
      rw [RxRes.ok.injEq] at h
      obtain ⟨h1, -⟩ := h
      subst h1
      simp
    · -- GETDUMMYCHAR
      cases hscan : scanDummy s.rxbuf s.rxfill <;> rw [hscan] at h
      · rw [RxRes.ok.injEq] at h
        obtain ⟨h1, -⟩ := h
        subst h1
        simp [elm327_drop_bytes]
      · dsimp only at h
        split at h <;>
        · rw [RxRes.ok.injEq] at h
          obtain ⟨h1, -⟩ := h
          subst h1
          simp [elm327_drop_bytes, elm327_send_fst]
    · -- GETPROMPT
      cases hr : readRx s.rxbuf ((s.rxfill : Int) - 1) <;> rw [hr] at h
      · cases h
      · dsimp only at h
        split at h <;>
        · rw [RxRes.ok.injEq] at h
          obtain ⟨h1, -⟩ := h
          subst h1
          simp [elm327_handle_prompt_rxfill]
    · -- RECEIVING
      dsimp only at h
      split at h
      · rw [RxRes.ok.injEq] at h
        obtain ⟨h1, -⟩ := h
        subst h1
        simp [elm327_uart_side_failure]
      · split at h
        · cases hr : readRx s.rxbuf ((s.rxfill : Int) - 1) <;> rw [hr] at h <;>
            dsimp only at h
          · cases h
          · split at h
            · rw [RxRes.ok.injEq] at h
              obtain ⟨h1, -⟩ := h
              subst h1
              rw [elm327_handle_prompt_rxfill]
              simp
            · rw [RxRes.ok.injEq] at h
              obtain ⟨h1, -⟩ := h
              subst h1
              exact Nat.le_refl _
        · split at h
          · cases hrec : elm327_parse_rxbuf n
              (elm327_drop_bytes (elm327_parse_line s (firstCR s.rxbuf s.rxfill)).1
                (firstCR s.rxbuf s.rxfill + 1)) <;> rw [hrec] at h
            · rw [RxRes.ok.injEq] at h
              obtain ⟨h1, -⟩ := h
              subst h1
              have h1 := ih _ _ _ hrec
              have h2 := elm327_parse_line_rxfill s (firstCR s.rxbuf s.rxfill)
              simp [elm327_drop_bytes] at h1
              omega
            · cases h
            · cases h
          · rw [RxRes.ok.injEq] at h
            obtain ⟨h1, -⟩ := h
            subst h1
            have h2 := elm327_parse_line_rxfill s (firstCR s.rxbuf s.rxfill)
            simp [elm327_drop_bytes]
            omega

theorem can327_rx_loop_rxfill_le (input : List (Nat × Bool)) :
    ∀ (s : Can327) (outs : List Out) (s1 : Can327) (outs1 : List Out),
      can327_rx_loop s outs input = RxRes.ok s1 outs1 →
      s.rxfill ≤ ELM327_SIZE_RXBUF → s1.rxfill ≤ ELM327_SIZE_RXBUF := by
  induction input with
  | nil =>
    intro s outs s1 outs1 h hle
    rw [can327_rx_loop] at h
    cases hp : elm327_parse_rxbuf (ELM327_SIZE_RXBUF + 1) s <;> rw [hp] at h
    · rw [RxRes.ok.injEq] at h
      obtain ⟨h1, -⟩ := h
      subst h1
      exact le_trans (elm327_parse_rxbuf_rxfill_le _ _ _ _ hp) hle
    · cases h
    · cases h
  | cons bf rest ih =>
    intro s outs s1 outs1 h hle
    rw [can327_rx_loop] at h
    dsimp only at h
    split at h
    · split at h
      · rw [RxRes.ok.injEq] at h
        obtain ⟨h1, -⟩ := h
        subst h1
        exact hle
      · split at h
        · exact ih _ _ _ _ h hle
        · split at h
          · rw [RxRes.ok.injEq] at h
            obtain ⟨h1, -⟩ := h
            subst h1
            exact hle
          · exact ih _ _ _ _ h (by dsimp only; omega)
    · rw [RxRes.ok.injEq] at h
      obtain ⟨h1, -⟩ := h
      subst h1
      exact hle

/-- C8 amended: the receive capacity is 224, not at least 256; with
that, the fill-count invariant and the overflow latch hold: any
successful ingest pass preserves `rxfill ≤ R`, and an ingest step that
finds the buffer full with input bytes still remaining trips the
failure latch (emitting the bus-off frame). -/
theorem c8_amended_rxfill_invariant :
    ELM327_SIZE_RXBUF = 224 ∧
    (∀ (s : Can327) (input : List (Nat × Bool)) (s1 : Can327) (outs1 : List Out),
       s.rxfill ≤ ELM327_SIZE_RXBUF →
       can327_ldisc_rx s input = RxRes.ok s1 outs1 →
       s1.rxfill ≤ ELM327_SIZE_RXBUF) ∧
    (∀ (s : Can327) (outs : List Out) (b : Nat) (flag : Bool) (rest : List (Nat × Bool)),
       s.rxfill = ELM327_SIZE_RXBUF →
       can327_rx_loop s outs ((b, flag) :: rest) =
         RxRes.ok { s with uart_side_failure := true }
           (outs ++ [Out.frame { can_id := Nat.lor CAN_ERR_FLAG CAN_ERR_BUSOFF,
                                 len := CAN_ERR_DLC, data := List.replicate 8 0 }])) := by
  refine ⟨rfl, ?_, ?_⟩
  · intro s input s1 outs1 hle h
    rw [can327_ldisc_rx] at h
    split at h
    · rw [RxRes.ok.injEq] at h
      obtain ⟨h1, -⟩ := h
      subst h1
      exact hle
    · exact can327_rx_loop_rxfill_le input s [] s1 outs1 h hle
  · intro s outs b flag rest hfill
    rw [can327_rx_loop]
    dsimp only
    rw [if_neg (by omega)]
    rfl

/-- Witness for the amended C8: a NOTINIT pass keeps the fill within
bounds, and a full buffer with one more byte arriving latches. -/
theorem c8_amended_rxfill_invariant_witness :
    ({ rxbuf := List.replicate 224 0, rxfill := 0, state := ElmState.NOTINIT,
       cmds_todo := noCmds, next_init_cmd := 0,
       can_frame_to_send := { can_id := 0x7df, len := 0, data := List.replicate 8 0 },
       can_config := 0xE001, can_bitrate_divisor := 1, drop_next_line := false,
       uart_side_failure := false, ctrlmode_listenonly := false : Can327 }).rxfill ≤
      ELM327_SIZE_RXBUF ∧
    can327_rx_loop
      { rxbuf := List.replicate 224 32, rxfill := 224, state := ElmState.RECEIVING,
        cmds_todo := noCmds, next_init_cmd := 18,
        can_frame_to_send := { can_id := 0x7df, len := 0, data := List.replicate 8 0 },
        can_config := 0xE001, can_bitrate_divisor := 1, drop_next_line := false,
        uart_side_failure := false, ctrlmode_listenonly := false }
      [] [(65, false)] =
      RxRes.ok
        { rxbuf := List.replicate 224 32, rxfill := 224, state := ElmState.RECEIVING,
          cmds_todo := noCmds, next_init_cmd := 18,
          can_frame_to_send := { can_id := 0x7df, len := 0, data := List.replicate 8 0 },
          can_config := 0xE001, can_bitrate_divisor := 1, drop_next_line := false,
          uart_side_failure := true, ctrlmode_listenonly := false }
        [Out.frame { can_id := Nat.lor CAN_ERR_FLAG CAN_ERR_BUSOFF, len := CAN_ERR_DLC,
                     data := List.replicate 8 0 }] := by
  refine ⟨?_, ?_⟩
  · have h := c8_amended_rxfill_invariant.2.1
      { rxbuf := List.replicate 224 0, rxfill := 0, state := ElmState.NOTINIT,
        cmds_todo := noCmds, next_init_cmd := 0,
        can_frame_to_send := { can_id := 0x7df, len := 0, data := List.replicate 8 0 },
        can_config := 0xE001, can_bitrate_divisor := 1, drop_next_line := false,
        uart_side_failure := false, ctrlmode_listenonly := false }
      []
      { rxbuf := List.replicate 224 0, rxfill := 0, state := ElmState.NOTINIT,
        cmds_todo := noCmds, next_init_cmd := 0,
        can_frame_to_send := { can_id := 0x7df, len := 0, data := List.replicate 8 0 },
        can_config := 0xE001, can_bitrate_divisor := 1, drop_next_line := false,
        uart_side_failure := false, ctrlmode_listenonly := false }
      [] (by decide) (by decide)
    exact h
  · have h := c8_amended_rxfill_invariant.2.2
      { rxbuf := List.replicate 224 32, rxfill := 224, state := ElmState.RECEIVING,
        cmds_todo := noCmds, next_init_cmd := 18,
        can_frame_to_send := { can_id := 0x7df, len := 0, data := List.replicate 8 0 },
        can_config := 0xE001, can_bitrate_divisor := 1, drop_next_line := false,
        uart_side_failure := false, ctrlmode_listenonly := false }
      [] 65 false [] rfl
    simpa using h
